import Mathlib

/-!
Shallow embedding of the kilovolt-client-go repository (strimertul/kilovolt-client-go),
src/client.go. The current client variant (kilovolt v11, client.go:306-861 of the
combined source listing) is the primary authority; the older v3 variant
(client.go:1-304) is embedded where a claim cites it.

Conventions of the embedding:
- Go channels are identified by numeric identity (`Nat`), since the code only ever
  compares them by reference and writes to them.
- The concurrent maps (`cmap.ConcurrentMap`, used for `requests`, `keysubs`,
  `prefixsubs`) are embedded as association lists with the cmap key-uniqueness
  invariant carried as a hypothesis where a proof needs it. `cmapGet`, `cmapSet`,
  `cmapRemove`, `cmapHas` mirror `Get`, `Set`, `Remove`, `Has`.
- JSON (de)serialization by jsoniter is an external collaborator: wire messages are
  embedded as records of the fields the code reads, and a failed unmarshal is an
  `Option` returning `none`.
- The websocket transport, the base64 codec and the HMAC computation are external
  collaborators and enter as explicit parameters.
-/

namespace Kvclient

/-! ## Concurrent-map model (orcaman/concurrent-map as used by the client) -/

/-- Lookup in the map: `m.Get(k)` of the concurrent map. -/
def cmapGet {α : Type} (m : List (String × α)) (k : String) : Option α :=
  match m with
  | [] => none
  | e :: rest => if e.1 = k then some e.2 else cmapGet rest k

/-- Upsert: `m.Set(k, v)` of the concurrent map (replaces the entry for `k`,
or appends a new one). -/
def cmapSet {α : Type} (m : List (String × α)) (k : String) (v : α) : List (String × α) :=
  match m with
  | [] => [(k, v)]
  | e :: rest => if e.1 = k then (k, v) :: rest else e :: cmapSet rest k v

/-- Deletion: `m.Remove(k)` of the concurrent map. -/
def cmapRemove {α : Type} (m : List (String × α)) (k : String) : List (String × α) :=
  match m with
  | [] => []
  | e :: rest => if e.1 = k then cmapRemove rest k else e :: cmapRemove rest k

/-- Membership test: `m.Has(k)` of the concurrent map. -/
def cmapHas {α : Type} (m : List (String × α)) (k : String) : Bool :=
  (cmapGet m k).isSome

/-- Removal of the first occurrence of a channel from a listener slice, by identity.
This is the observable effect of the removal loop in `UnsubscribeKey` /
`UnsubscribePrefix` (client.go:690-696, 750-756) when the channel occurs at most once,
which holds because every subscribe call allocates a fresh channel. -/
def removeFirst (chans : List Nat) (chn : Nat) : List Nat :=
  match chans with
  | [] => []
  | c :: rest => if c = chn then rest else c :: removeFirst rest chn

/-! ## Wire messages and dispatch-loop state -/

/-- The fields of one protocol message that the dispatch path reads, i.e. the union of
the fields of `kv.Response` (requestId, cmdType, ok, data) and `kv.Error`
(error, details). In the source the same JSON text is unmarshalled into either
shape; here both views read from this one record. -/
structure WireMsg where
  requestId : String
  cmdType : String
  ok : Bool
  data : String
  error : String
  details : String
  deriving DecidableEq

/-- A `kv.Push` payload: key and new value (client.go:495). -/
structure Push where
  key : String
  newValue : String
  deriving DecidableEq

/-- One newline-delimited message of a frame, as seen by the dispatch goroutine:
the result of unmarshalling it as a `kv.Response` envelope (`none` = deserialize
error), the result of unmarshalling it as a `kv.Push` (`none` = deserialize error),
and the raw text that is handed to a pending-request channel. -/
structure RawMsg where
  envelope : Option WireMsg
  pushPayload : Option Push
  raw : String
  deriving DecidableEq

/-- A delivery performed by the dispatch goroutine: a raw message written to a
pending-request channel, or a key-value pair written to a listener channel. -/
inductive DeliveryEvent where
  | toRequest (slot : Nat) (raw : String)
  | toListener (slot : Nat) (key : String) (newValue : String)
  deriving DecidableEq

/-- The shared client state the dispatch goroutine touches: `requests`,
`keysubs` and `prefixsubs` (client.go:345-347). -/
structure ClientState where
  requests : List (String × Nat)
  keysubs : List (String × List Nat)
  prefixsubs : List (String × List Nat)
  deriving DecidableEq

/-! ## Push fan-out (dispatch goroutine, client.go:502-515) -/

/-- Key-subscription deliveries for a push: the slots registered under exactly
`p.key`, from `if subs, ok := s.keysubs.Get(push.Key); ok` (client.go:503-507). -/
def keySubDeliveries (keysubs : List (String × List Nat)) (p : Push) : List Nat :=
  match cmapGet keysubs p.key with
  | some subs => subs
  | none => []

/-- Go strings.HasPrefix, with the arguments in selector-first order: the selector is
a prefix of the key. Embedded as the character-list prefix test, which agrees with
the byte-prefix test of Go on UTF-8 strings. -/
def goHasPrefix (pre s : String) : Bool :=
  pre.data.isPrefixOf s.data

/-- Prefix-subscription deliveries for a push: the iteration
`for pair := range s.prefixsubs.IterBuffered()` delivering whenever
`strings.HasPrefix(push.Key, pair.Key)` (client.go:509-515). -/
def prefixSubDeliveries (prefixsubs : List (String × List Nat)) (p : Push) : List Nat :=
  match prefixsubs with
  | [] => []
  | pair :: rest =>
    if goHasPrefix pair.1 p.key then pair.2 ++ prefixSubDeliveries rest p
    else prefixSubDeliveries rest p

/-- All slots a push is delivered to: exact-key deliveries then prefix deliveries
(client.go:502-515). -/
def pushDeliveries (keysubs prefixsubs : List (String × List Nat)) (p : Push) : List Nat :=
  keySubDeliveries keysubs p ++ prefixSubDeliveries prefixsubs p

/-! ## Pending-request resolution (dispatch goroutine, client.go:482-490) -/

/-- The response branch of the dispatch goroutine: if the request id is present in the
table, deliver the raw message to its channel and `Remove` the entry; if absent, log
and carry on (client.go:484-490). Returns the new table and the delivery, if any. -/
def resolveRequest (requests : List (String × Nat)) (rid : String) (raw : String) :
    List (String × Nat) × Option (Nat × String) :=
  match cmapGet requests rid with
  | some chn => (cmapRemove requests rid, some (chn, raw))
  | none => (requests, none)

/-- The response branch of the older-variant dispatch goroutine (client.go:102-110):
the raw message is delivered with `chn <- msg` but the entry is never deleted — the
older variant has no `Remove` call at all. Returns the (unchanged) table and the
delivery, if any. -/
def resolveRequestOld (requests : List (String × Nat)) (rid : String) (raw : String) :
    List (String × Nat) × Option (Nat × String) :=
  match cmapGet requests rid with
  | some chn => (requests, some (chn, raw))
  | none => (requests, none)

/-- Processing of one submessage by the dispatch goroutine (client.go:474-517).
Returns the new state, the deliveries performed, and whether the loop exits
(the `return` on an envelope deserialize error). -/
def processMsg (st : ClientState) (m : RawMsg) : ClientState × List DeliveryEvent × Bool :=
  match m.envelope with
  | none => (st, [], true)
  | some env =>
    if env.requestId ≠ "" then
      let r := resolveRequest st.requests env.requestId m.raw
      ({ st with requests := r.1 },
        (match r.2 with
         | some d => [DeliveryEvent.toRequest d.1 d.2]
         | none => []),
        false)
    else if env.cmdType = "push" then
      match m.pushPayload with
      | none => (st, [], false)
      | some p =>
        (st,
          (pushDeliveries st.keysubs st.prefixsubs p).map
            (fun c => DeliveryEvent.toListener c p.key p.newValue),
          false)
    else (st, [], false)

/-- Processing of the submessages of one frame in order
(`for _, msg := range submessages`, client.go:474), stopping when a message is fatal.
Returns the final state, the concatenated deliveries, and whether the loop exited. -/
def processFrame (st : ClientState) : List RawMsg → ClientState × List DeliveryEvent × Bool
  | [] => (st, [], false)
  | m :: rest =>
    let r1 := processMsg st m
    if r1.2.2 then (r1.1, r1.2.1, true)
    else
      let r2 := processFrame r1.1 rest
      (r2.1, r1.2.1 ++ r2.2.1, r2.2.2)

/-! ## makeRequest (client.go:806-842) -/

/-- The send phase of `makeRequest` (client.go:816-824): a fresh request id is chosen,
an unbuffered response channel is allocated, the entry is `Set` into the table, and
the request is sent. On a send error the function returns immediately; the table is
not touched again on that path. Returns the table afterwards and whether the request
was abandoned by a send error. -/
def makeRequestSendPhase (requests : List (String × Nat)) (rid : String) (slot : Nat)
    (sendErr : Bool) : List (String × Nat) × Bool :=
  let requests1 := cmapSet requests rid slot
  (requests1, sendErr)

/-- The tail of `makeRequest` after the reply arrives (client.go:827-841): the message
is read as a response envelope; if `Ok` is false it is re-read as an error envelope and
the call fails with an error formatted `fmt.Errorf("%s: %s", err.Error, err.Details)`;
otherwise the parsed response is returned with no error. -/
def makeRequestTail (reply : WireMsg) : Except String WireMsg :=
  if !reply.ok then Except.error (reply.error ++ ": " ++ reply.details)
  else Except.ok reply

/-! ## Subscription facade (client.go:656-774) -/

/-- The `ErrSubscriptionNotFound` sentinel (client.go:329). -/
def ErrSubscriptionNotFound : String := "subscription not found"

/-- The listeners currently registered under a selector: the entry if present,
else the empty list. -/
def listenersOf (m : List (String × List Nat)) (k : String) : List Nat :=
  (cmapGet m k).getD []

/-- `SubscribeKey` (client.go:656-680): append a fresh buffered channel to the entry
for `key`; issue one server-side subscribe-key request exactly when
`needsAPISubscription = !ok || len(subs) < 1`. Returns the new registry and the
number of server-side subscribe requests issued. -/
def SubscribeKey (keysubs : List (String × List Nat)) (key : String) (chn : Nat) :
    List (String × List Nat) × Nat :=
  let data := cmapGet keysubs key
  let subs := data.getD []
  let needsAPISubscription : Bool := !data.isSome || decide (subs.length < 1)
  (cmapSet keysubs key (subs ++ [chn]), if needsAPISubscription then 1 else 0)

/-- `UnsubscribeKey` (client.go:682-714): if no entry exists return nil; otherwise
remove `chn` from the entry — failing with `ErrSubscriptionNotFound` when it is not
registered — and issue one server-side unsubscribe-key request exactly when the entry
became empty. Returns the registry, the number of server-side unsubscribe requests
issued, and the error, if any. -/
def UnsubscribeKey (keysubs : List (String × List Nat)) (key : String) (chn : Nat) :
    List (String × List Nat) × Nat × Option String :=
  match cmapGet keysubs key with
  | none => (keysubs, 0, none)
  | some chans =>
    if chn ∈ chans then
      let chans1 := removeFirst chans chn
      let keysubs1 := cmapSet keysubs key chans1
      if chans1.length < 1 then (keysubs1, 1, none) else (keysubs1, 0, none)
    else (keysubs, 0, some ErrSubscriptionNotFound)

/-- `SubscribePrefix` (client.go:716-740): same structure as `SubscribeKey` over the
`prefixsubs` registry, issuing a subscribe-prefix request on the 0-to-1 transition. -/
def SubscribePrefix (prefixsubs : List (String × List Nat)) (pfx : String) (chn : Nat) :
    List (String × List Nat) × Nat :=
  let data := cmapGet prefixsubs pfx
  let subs := data.getD []
  let needsAPISubscription : Bool := !data.isSome || decide (subs.length < 1)
  (cmapSet prefixsubs pfx (subs ++ [chn]), if needsAPISubscription then 1 else 0)

/-- `UnsubscribePrefix` (client.go:742-774): same structure as `UnsubscribeKey` over
the `prefixsubs` registry. -/
def UnsubscribePrefix (prefixsubs : List (String × List Nat)) (pfx : String) (chn : Nat) :
    List (String × List Nat) × Nat × Option String :=
  match cmapGet prefixsubs pfx with
  | none => (prefixsubs, 0, none)
  | some chans =>
    if chn ∈ chans then
      let chans1 := removeFirst chans chn
      let prefixsubs1 := cmapSet prefixsubs pfx chans1
      if chans1.length < 1 then (prefixsubs1, 1, none) else (prefixsubs1, 0, none)
    else (prefixsubs, 0, some ErrSubscriptionNotFound)

/-! ## JSON set/get round trip (client.go:576-592, 621-636; older variant 154-195) -/

/-- Command-name constant `kv.CmdReadKey` of the external kilovolt package; the exact
wire string is opaque here, only its distinctness from the write command matters. -/
def CmdReadKey : String := "kget"

/-- Command-name constant `kv.CmdWriteKey` of the external kilovolt package. -/
def CmdWriteKey : String := "kset"

/-- A request as built by the key read/write operations: a command name, the key
argument, and the data argument. -/
structure KVRequest where
  cmdName : String
  key : String
  data : String
  deriving DecidableEq

/-- `SetJSON` of the current client (client.go:621-636): serialize the value with
jsoniter (here: the `marshal` parameter) and issue a `CmdWriteKey` request carrying
the key and the serialized string. -/
def SetJSON {α : Type} (marshal : α → String) (key : String) (v : α) : KVRequest :=
  { cmdName := CmdWriteKey, key := key, data := marshal v }

/-- `SetJSON` of the older client variant (client.go:180-195): identical except that
the request it issues carries `kv.CmdReadKey` as the command name. -/
def SetJSONOld {α : Type} (marshal : α → String) (key : String) (v : α) : KVRequest :=
  { cmdName := CmdReadKey, key := key, data := marshal v }

/-- The external kilovolt server, assumed — as the claim does — to faithfully store
written strings: a write-key request stores its data under its key, a read-key
request returns the stored string (or the empty string when unset) and stores
nothing. Returns the new store and the response data. -/
def serverApply (st : List (String × String)) (r : KVRequest) :
    List (String × String) × String :=
  if r.cmdName = CmdWriteKey then (cmapSet st r.key r.data, "")
  else if r.cmdName = CmdReadKey then (st, (cmapGet st r.key).getD "")
  else (st, "")

/-- `GetJSON` of the current client (client.go:576-592): issue a `CmdReadKey` request;
if the returned data is empty fail with `ErrEmptyKey` (client.go:587-589); otherwise
unmarshal the string into the destination shape (here: the `unmarshal` parameter). -/
def GetJSON {α : Type} (unmarshal : String → Option α) (st : List (String × String))
    (key : String) : Except String α :=
  let resp := (serverApply st { cmdName := CmdReadKey, key := key, data := "" }).2
  if resp = "" then Except.error "key empty or unset"
  else
    match unmarshal resp with
    | some v => Except.ok v
    | none => Except.error "unmarshal error"

/-- A concrete serializable shape with its codec, used to instantiate the round-trip
theorem: the encoding is a nonempty unary string, so it is injective and never
collides with the empty-string "unset" convention. -/
def natMarshal (n : Nat) : String :=
  String.mk (List.replicate (n + 1) 'a')

/-- Decoder matching `natMarshal`. -/
def natUnmarshal (s : String) : Option Nat :=
  if s.length = 0 then none else some (s.length - 1)

/-! ## Authenticate (client.go:387-420) -/

/-- A JSON value as surfaced by jsoniter into `interface{}`: enough structure for the
`res.Data` payload of the auth-request response. -/
inductive JValue where
  | nul
  | str (s : String)
  | num (n : Int)
  | obj (fields : List (String × JValue))

/-- Outcome of a Go computation that may return normally, return an error, or panic
(a failed type assertion panics). -/
inductive GoResult (α : Type) where
  | ok (val : α)
  | err (msg : String)
  | panicked
  deriving DecidableEq

/-- The Go type assertion `x.(map[string]interface{})`: panics unless the value is an
object. -/
def typeAssertObj : JValue → GoResult (List (String × JValue))
  | JValue.obj fields => GoResult.ok fields
  | _ => GoResult.panicked

/-- The Go type assertion `x.(string)`: panics unless the value is a string. -/
def typeAssertString : JValue → GoResult String
  | JValue.str s => GoResult.ok s
  | _ => GoResult.panicked

/-- A Go map read `data[k]`: a missing key yields the zero value (nil interface). -/
def mapIndex (fields : List (String × JValue)) (k : String) : JValue :=
  (cmapGet fields k).getD JValue.nul

/-- `Authenticate` (client.go:387-420). External collaborators enter as parameters:
`b64decode` is `base64.StdEncoding.DecodeString` (`none` = decode error), `hm` is the
HMAC-SHA256 digest (password, salt bytes, challenge bytes, base64-encoded), `round1`
is the result of the first `makeRequest` (its `res.Data`), and `round2` is the second
`makeRequest` as a function of the hash it carries. The code reads
`res.Data.(map[string]interface{})`, then `data["challenge"].(string)` and
`data["salt"].(string)` — each a panicking type assertion — and base64-decodes both,
returning a wrapped error when decoding fails. -/
def Authenticate (b64decode : String → Option (List Nat))
    (hm : String → List Nat → List Nat → String)
    (round1 : Except String JValue) (round2 : String → Except String Unit)
    (password : String) : GoResult Unit :=
  match round1 with
  | Except.error e => GoResult.err e
  | Except.ok resData =>
    match typeAssertObj resData with
    | GoResult.panicked => GoResult.panicked
    | GoResult.err e => GoResult.err e
    | GoResult.ok data =>
      match typeAssertString (mapIndex data "challenge") with
      | GoResult.panicked => GoResult.panicked
      | GoResult.err e => GoResult.err e
      | GoResult.ok challengeStr =>
        match b64decode challengeStr with
        | none => GoResult.err "failed to decode challenge"
        | some challengeBytes =>
          match typeAssertString (mapIndex data "salt") with
          | GoResult.panicked => GoResult.panicked
          | GoResult.err e => GoResult.err e
          | GoResult.ok saltStr =>
            match b64decode saltStr with
            | none => GoResult.err "failed to decode salt"
            | some saltBytes =>
              match round2 (hm password saltBytes challengeBytes) with
              | Except.error e => GoResult.err e
              | Except.ok _ => GoResult.ok ()

/-! ## Channel-capacity model (client.go:657, 717, 816) -/

/-- A Go channel for blocking analysis: its buffer capacity, the number of values
currently buffered, and whether a receiver is ready at the rendezvous. -/
structure BufChan where
  capacity : Nat
  queued : Nat
  receiverWaiting : Bool
  deriving DecidableEq

/-- Whether a send on the channel would block: a Go channel send proceeds immediately
iff a receiver is waiting or the buffer has room. -/
def sendWouldBlock (c : BufChan) : Bool :=
  if c.receiverWaiting then false
  else if c.queued < c.capacity then false
  else true

/-- Capacity of the per-request response channel: `make(chan string)` at
client.go:816 — unbuffered. -/
def responseChannelCapacity : Nat := 0

/-- Capacity of a listener channel: `make(chan KeyValuePair, 10)` at client.go:657
and client.go:717. -/
def listenerChannelCapacity : Nat := 10

/-! ## Endpoint scheme rewrite (client.go:445-449; older variant 71-75) -/

/-- The scheme rewrite in `ConnectToWebsocket`:
`if uri.Scheme == "https" { uri.Scheme = "wss" } else { uri.Scheme = "ws" }`. -/
def rewriteScheme (scheme : String) : String :=
  if scheme = "https" then "wss" else "ws"

/-! ## Concrete instances used by counterexamples -/

/-- Envelope of a push message: no request id, cmdType "push". -/
def pushEnvelope : WireMsg :=
  WireMsg.mk "" "push" true "" "" ""

/-- Envelope of a response message correlated to request id r1. -/
def respEnvelope : WireMsg :=
  WireMsg.mk "r1" "response" true "" "" ""

/-- A message whose envelope parses (no request id, cmdType "push") but whose push
payload fails to unmarshal. -/
def badPushMsg : RawMsg :=
  { envelope := some pushEnvelope, pushPayload := none, raw := "badpush" }

/-- A well-formed response message correlated to request id r1. -/
def respMsg : RawMsg :=
  { envelope := some respEnvelope, pushPayload := none, raw := "respraw" }

/-- A client state with one pending request r1 on channel 7 and no subscriptions. -/
def pendingState : ClientState :=
  { requests := [("r1", 7)], keysubs := [], prefixsubs := [] }

/-! ## Helper lemmas about the concurrent-map model -/

theorem mem_of_cmapGet_eq_some {α : Type} {m : List (String × α)} {k : String} {v : α}
    (h : cmapGet m k = some v) : (k, v) ∈ m := by
  induction m with
  | nil => simp [cmapGet] at h
  | cons e rest ih =>
    by_cases he : e.1 = k
    · rw [cmapGet, if_pos he] at h
      obtain ⟨k1, v1⟩ := e
      simp only at he
      simp only [Option.some.injEq] at h
      subst he h
      exact List.mem_cons_self _ _
    · rw [cmapGet, if_neg he] at h
      exact List.mem_cons_of_mem _ (ih h)

theorem cmapGet_eq_some_of_mem {α : Type} {m : List (String × α)} {k : String} {v : α}
    (hnd : (m.map Prod.fst).Nodup) (hm : (k, v) ∈ m) : cmapGet m k = some v := by
  induction m with
  | nil => cases hm
  | cons e rest ih =>
    rw [List.map_cons, List.nodup_cons] at hnd
    rcases List.mem_cons.mp hm with he | ht
    · subst he
      simp [cmapGet]
    · have hk : k ∈ rest.map Prod.fst := List.mem_map_of_mem Prod.fst ht
      have hne : e.1 ≠ k := fun hcontra => hnd.1 (hcontra ▸ hk)
      rw [cmapGet, if_neg hne]
      exact ih hnd.2 ht

theorem cmapGet_cmapSet_self {α : Type} (m : List (String × α)) (k : String) (v : α) :
    cmapGet (cmapSet m k v) k = some v := by
  induction m with
  | nil => simp [cmapSet, cmapGet]
  | cons e rest ih =>
    by_cases he : e.1 = k
    · simp [cmapSet, he, cmapGet]
    · simp [cmapSet, he, cmapGet, ih]

theorem cmapGet_cmapRemove_self {α : Type} (m : List (String × α)) (k : String) :
    cmapGet (cmapRemove m k) k = none := by
  induction m with
  | nil => simp [cmapRemove, cmapGet]
  | cons e rest ih =>
    by_cases he : e.1 = k
    · simp [cmapRemove, he, ih]
    · simp [cmapRemove, he, cmapGet, ih]

theorem mem_prefixSubDeliveries_iff (prefixsubs : List (String × List Nat)) (p : Push)
    (c : Nat) :
    c ∈ prefixSubDeliveries prefixsubs p ↔
      ∃ pre subs, (pre, subs) ∈ prefixsubs ∧ goHasPrefix pre p.key = true ∧ c ∈ subs := by
  induction prefixsubs with
  | nil => simp [prefixSubDeliveries]
  | cons pair rest ih =>
    by_cases hp : goHasPrefix pair.1 p.key
    · rw [prefixSubDeliveries, if_pos hp]
      constructor
      · intro hc
        rcases List.mem_append.mp hc with hin | hin
        · exact ⟨pair.1, pair.2, List.mem_cons_self _ _, hp, hin⟩
        · obtain ⟨pre, subs, hmem, hpre, hcc⟩ := ih.mp hin
          exact ⟨pre, subs, List.mem_cons_of_mem _ hmem, hpre, hcc⟩
      · rintro ⟨pre, subs, hmem, hpre, hcc⟩
        rcases List.mem_cons.mp hmem with heq | hmem2
        · apply List.mem_append.mpr
          left
          have : pair.2 = subs := congrArg Prod.snd heq.symm
          exact this ▸ hcc
        · exact List.mem_append.mpr (Or.inr (ih.mpr ⟨pre, subs, hmem2, hpre, hcc⟩))
    · rw [prefixSubDeliveries, if_neg hp]
      constructor
      · intro hc
        obtain ⟨pre, subs, hmem, hpre, hcc⟩ := ih.mp hc
        exact ⟨pre, subs, List.mem_cons_of_mem _ hmem, hpre, hcc⟩
      · rintro ⟨pre, subs, hmem, hpre, hcc⟩
        rcases List.mem_cons.mp hmem with heq | hmem2
        · exfalso
          apply hp
          have : pair.1 = pre := congrArg Prod.fst heq.symm
          exact this ▸ hpre
        · exact ih.mpr ⟨pre, subs, hmem2, hpre, hcc⟩

theorem mem_keySubDeliveries_iff (keysubs : List (String × List Nat)) (p : Push) (c : Nat)
    (hnd : (keysubs.map Prod.fst).Nodup) :
    c ∈ keySubDeliveries keysubs p ↔ ∃ subs, (p.key, subs) ∈ keysubs ∧ c ∈ subs := by
  unfold keySubDeliveries
  cases hg : cmapGet keysubs p.key with
  | none =>
    simp only [List.not_mem_nil, false_iff]
    rintro ⟨subs, hmem, hcc⟩
    rw [cmapGet_eq_some_of_mem hnd hmem] at hg
    cases hg
  | some subs =>
    constructor
    · intro hc
      exact ⟨subs, mem_of_cmapGet_eq_some hg, hc⟩
    · rintro ⟨subs2, hmem, hcc⟩
      have := cmapGet_eq_some_of_mem hnd hmem
      rw [hg] at this
      cases this
      exact hcc

/-! ## Claim theorems -/

/-- C1: a push for key `k` is delivered exactly to the slots registered under exact
key `k` and to the slots registered under a prefix selector that is a string-prefix
of `k` (the empty prefix matches every key, all overlapping prefixes fire); a slot
registered only under a different exact key — in particular an exact key that is a
proper prefix of `k` — receives nothing. -/
theorem pushDeliveries_spec (keysubs prefixsubs : List (String × List Nat)) (p : Push)
    (c : Nat) (hnd : (keysubs.map Prod.fst).Nodup) :
    c ∈ pushDeliveries keysubs prefixsubs p ↔
      ((∃ subs, (p.key, subs) ∈ keysubs ∧ c ∈ subs) ∨
       (∃ pre subs, (pre, subs) ∈ prefixsubs ∧ goHasPrefix pre p.key = true ∧ c ∈ subs)) := by
  unfold pushDeliveries
  rw [List.mem_append, mem_keySubDeliveries_iff keysubs p c hnd,
    mem_prefixSubDeliveries_iff]

/-- Witness for C1, at the scenario of the spec: push key "subAAAA", a listener (2) on
exact key "subAAAA", a listener (1) on exact key "sub", a listener (3) on prefix
"sub". Listeners 2 and 3 receive the push; listener 1 does not. -/
theorem pushDeliveries_spec_witness :
    2 ∈ pushDeliveries [("sub", [1]), ("subAAAA", [2])] [("sub", [3])]
        (Push.mk "subAAAA" "x") ∧
    3 ∈ pushDeliveries [("sub", [1]), ("subAAAA", [2])] [("sub", [3])]
        (Push.mk "subAAAA" "x") ∧
    ¬ 1 ∈ pushDeliveries [("sub", [1]), ("subAAAA", [2])] [("sub", [3])]
        (Push.mk "subAAAA" "x") := by
  refine ⟨?_, ?_, by decide⟩
  · exact (pushDeliveries_spec [("sub", [1]), ("subAAAA", [2])] [("sub", [3])]
      (Push.mk "subAAAA" "x") 2 (by decide)).mpr (Or.inl ⟨[2], by decide, by decide⟩)
  · exact (pushDeliveries_spec [("sub", [1]), ("subAAAA", [2])] [("sub", [3])]
      (Push.mk "subAAAA" "x") 3 (by decide)).mpr
      (Or.inr ⟨"sub", [3], by decide, by decide, by decide⟩)

/-- C2 counterexample: when the send inside `makeRequest` fails, the function returns
with the freshly inserted request id still present in the pending-request table — an
abandoned request identifier remains, contradicting the claim; and in the
older-variant response branch, delivering the correlated response leaves the resolved
identifier in the table as well, since that branch never deletes. -/
theorem abandoned_request_remains :
    (makeRequestSendPhase [] "ab" 7 true).2 = true ∧
    cmapHas (makeRequestSendPhase [] "ab" 7 true).1 "ab" = true ∧
    (resolveRequestOld [("ab", 7)] "ab" "msg").2 = some (7, "msg") ∧
    cmapHas (resolveRequestOld [("ab", 7)] "ab" "msg").1 "ab" = true := by
  decide

/-- C2 (amended): in the current client the pending-request entry is removed the
instant its correlated response is delivered by the dispatch goroutine; in the older
variant the response is delivered but the entry is never removed, so even a resolved
identifier remains; and in both variants a request abandoned by a send failure is not
removed — its identifier remains in the table. -/
theorem request_table_lifecycle (tbl : List (String × Nat)) (rid raw : String) (slot : Nat)
    (h : cmapHas tbl rid = true) :
    cmapHas (resolveRequest tbl rid raw).1 rid = false ∧
    cmapHas (makeRequestSendPhase tbl rid slot true).1 rid = true ∧
    (resolveRequestOld tbl rid raw).2.isSome = true ∧
    cmapHas (resolveRequestOld tbl rid raw).1 rid = true := by
  refine ⟨?_, ?_, ?_, ?_⟩
  · unfold resolveRequest
    cases hg : cmapGet tbl rid with
    | none => simp [cmapHas, hg] at h
    | some chn => simp [cmapHas, cmapGet_cmapRemove_self]
  · simp [cmapHas, makeRequestSendPhase, cmapGet_cmapSet_self]
  · unfold resolveRequestOld
    cases hg : cmapGet tbl rid with
    | none => simp [cmapHas, hg] at h
    | some chn => simp
  · unfold resolveRequestOld
    cases hg : cmapGet tbl rid with
    | none => simp [cmapHas, hg] at h
    | some chn => exact h

/-- Witness for C2 (amended), at a table holding request id "ab" on channel 7. -/
theorem request_table_lifecycle_witness :
    cmapHas (resolveRequest [("ab", 7)] "ab" "msg").1 "ab" = false ∧
    cmapHas (makeRequestSendPhase [("ab", 7)] "ab" 7 true).1 "ab" = true ∧
    (resolveRequestOld [("ab", 7)] "ab" "msg").2.isSome = true ∧
    cmapHas (resolveRequestOld [("ab", 7)] "ab" "msg").1 "ab" = true :=
  request_table_lifecycle [("ab", 7)] "ab" "msg" 7 (by decide)

/-- C10: the connection scheme is rewritten to "wss" iff the parsed endpoint scheme is
exactly "https"; every other scheme — including an already-secure "wss" — is
rewritten to plain "ws". -/
theorem scheme_rewrite (s : String) :
    (rewriteScheme s = "wss" ↔ s = "https") ∧
    (s ≠ "https" → rewriteScheme s = "ws") ∧
    rewriteScheme "wss" = "ws" := by
  refine ⟨?_, ?_, by decide⟩
  · unfold rewriteScheme
    by_cases h : s = "https" <;> simp [h]
  · intro h
    simp [rewriteScheme, h]

/-- Witness for C10 at the schemes "https", "http" and "wss". -/
theorem scheme_rewrite_witness :
    rewriteScheme "https" = "wss" ∧ rewriteScheme "http" = "ws" ∧
    rewriteScheme "wss" = "ws" :=
  ⟨(scheme_rewrite "https").1.mpr rfl, (scheme_rewrite "http").2.1 (by decide),
    (scheme_rewrite "wss").2.2⟩

/-- C3: for a key, and symmetrically for a prefix selector, subscribing when no
listener is registered issues exactly one server-side subscribe request; subscribing
while at least one listener is registered issues none; unsubscribing while another
listener remains issues zero server-side unsubscribe requests; removing the last
listener issues exactly one. -/
theorem subscription_transition_requests (m : List (String × List Nat)) (k : String)
    (c : Nat) :
    (listenersOf m k = [] → (SubscribeKey m k c).2 = 1 ∧ (SubscribePrefix m k c).2 = 1) ∧
    (listenersOf m k ≠ [] → (SubscribeKey m k c).2 = 0 ∧ (SubscribePrefix m k c).2 = 0) ∧
    (c ∈ listenersOf m k → removeFirst (listenersOf m k) c ≠ [] →
      (UnsubscribeKey m k c).2.1 = 0 ∧ (UnsubscribePrefix m k c).2.1 = 0) ∧
    (c ∈ listenersOf m k → removeFirst (listenersOf m k) c = [] →
      (UnsubscribeKey m k c).2.1 = 1 ∧ (UnsubscribePrefix m k c).2.1 = 1) := by
  refine ⟨?_, ?_, ?_, ?_⟩
  · intro h
    unfold listenersOf at h
    cases hg : cmapGet m k with
    | none => simp [SubscribeKey, SubscribePrefix, hg]
    | some subs =>
      rw [hg] at h
      simp only [Option.getD_some] at h
      simp [SubscribeKey, SubscribePrefix, hg, h]
  · intro h
    unfold listenersOf at h
    cases hg : cmapGet m k with
    | none => rw [hg] at h; simp at h
    | some subs =>
      rw [hg] at h
      simp only [Option.getD_some] at h
      have hlen : ¬ subs.length < 1 := by
        cases subs with
        | nil => simp at h
        | cons a t => simp
      simp [SubscribeKey, SubscribePrefix, hg, hlen]
  · intro hmem hrem
    unfold listenersOf at hmem hrem
    cases hg : cmapGet m k with
    | none => rw [hg] at hmem; simp at hmem
    | some chans =>
      rw [hg] at hmem hrem
      simp only [Option.getD_some] at hmem hrem
      have hlen : ¬ (removeFirst chans c).length < 1 := by
        cases hr : removeFirst chans c with
        | nil => exact absurd hr hrem
        | cons a t => simp
      simp [UnsubscribeKey, UnsubscribePrefix, hg, hmem, hlen]
  · intro hmem hrem
    unfold listenersOf at hmem hrem
    cases hg : cmapGet m k with
    | none => rw [hg] at hmem; simp at hmem
    | some chans =>
      rw [hg] at hmem hrem
      simp only [Option.getD_some] at hmem hrem
      simp [UnsubscribeKey, UnsubscribePrefix, hg, hmem, hrem]

/-- Witness for C3: first subscribe on an empty registry issues one request; a second
subscribe on a selector with a listener issues none; unsubscribing one of two
listeners issues no unsubscribe request; removing the last listener issues one. -/
theorem subscription_transition_requests_witness :
    (SubscribeKey [] "k" 3).2 = 1 ∧
    (SubscribeKey [("k", [4])] "k" 5).2 = 0 ∧
    (UnsubscribeKey [("k", [4, 5])] "k" 4).2.1 = 0 ∧
    (UnsubscribeKey [("k", [4])] "k" 4).2.1 = 1 :=
  ⟨((subscription_transition_requests [] "k" 3).1 (by decide)).1,
    ((subscription_transition_requests [("k", [4])] "k" 5).2.1 (by decide)).1,
    ((subscription_transition_requests [("k", [4, 5])] "k" 4).2.2.1 (by decide)
      (by decide)).1,
    ((subscription_transition_requests [("k", [4])] "k" 4).2.2.2 (by decide)
      (by decide)).1⟩

/-- C4: after the reply to a request arrives, if the response envelope carries a false
success flag the call fails with an error formatted from the server-supplied error
code and details and returns no payload; if the flag is true the call returns the
parsed response with no error. -/
theorem makeRequest_response_envelope (reply : WireMsg) :
    (reply.ok = false →
      makeRequestTail reply = Except.error (reply.error ++ ": " ++ reply.details)) ∧
    (reply.ok = true → makeRequestTail reply = Except.ok reply) := by
  constructor
  · intro h
    simp [makeRequestTail, h]
  · intro h
    simp [makeRequestTail, h]

/-- Witness for C4: a failing reply with code "ERR" and details "boom" yields the
combined error; a succeeding reply is returned as is. -/
theorem makeRequest_response_envelope_witness :
    makeRequestTail (WireMsg.mk "r1" "response" false "" "ERR" "boom")
      = Except.error "ERR: boom" ∧
    makeRequestTail (WireMsg.mk "r1" "response" true "payload" "" "")
      = Except.ok (WireMsg.mk "r1" "response" true "payload" "" "") :=
  ⟨(makeRequest_response_envelope (WireMsg.mk "r1" "response" false "" "ERR" "boom")).1
      rfl,
    (makeRequest_response_envelope (WireMsg.mk "r1" "response" true "payload" "" "")).2
      rfl⟩

/-- C5 counterexample: unsubscribing a slot from a selector that has no registry entry
at all returns nil — not the SubscriptionNotFound error the claim requires — for both
the key and the prefix registries. -/
theorem unsubscribe_missing_entry_no_error :
    (UnsubscribeKey [] "k" 0).2.2 = none ∧
    (UnsubscribePrefix [] "p" 0).2.2 = none ∧
    (UnsubscribeKey [] "k" 0).2.2 ≠ some ErrSubscriptionNotFound := by
  decide

/-- C5 (amended): unsubscribing a slot that is not registered under a selector fails
with SubscriptionNotFound when the selector has a registry entry (even one holding
other listeners); when the selector has no entry at all, the operation returns nil
with no server-side request and an unchanged registry. -/
theorem unsubscribe_unregistered_slot (m : List (String × List Nat)) (k : String)
    (c : Nat) :
    (cmapGet m k = none →
      UnsubscribeKey m k c = (m, 0, none) ∧ UnsubscribePrefix m k c = (m, 0, none)) ∧
    (∀ chans, cmapGet m k = some chans → c ∉ chans →
      UnsubscribeKey m k c = (m, 0, some ErrSubscriptionNotFound) ∧
      UnsubscribePrefix m k c = (m, 0, some ErrSubscriptionNotFound)) := by
  constructor
  · intro h
    simp [UnsubscribeKey, UnsubscribePrefix, h]
  · intro chans hg hc
    simp [UnsubscribeKey, UnsubscribePrefix, hg, hc]

/-- Witness for C5 (amended): slot 9 is not registered under "k", which holds other
listeners, so unsubscribing fails with SubscriptionNotFound; a selector with no entry
returns nil. -/
theorem unsubscribe_unregistered_slot_witness :
    UnsubscribeKey [("k", [4, 5])] "k" 9 = ([("k", [4, 5])], 0,
      some ErrSubscriptionNotFound) ∧
    UnsubscribeKey [] "k" 9 = ([], 0, none) :=
  ⟨((unsubscribe_unregistered_slot [("k", [4, 5])] "k" 9).2 [4, 5] (by decide)
      (by decide)).1,
    ((unsubscribe_unregistered_slot [] "k" 9).1 (by decide)).1⟩

/-- C6 counterexample: a frame whose first message parses as an envelope (a push) but
whose push payload fails to deserialize does not terminate the dispatch loop: the
message is skipped and the following message of the same frame is still processed
(here, resolving pending request r1 on channel 7). -/
theorem push_parse_failure_not_fatal :
    processFrame pendingState [badPushMsg, respMsg]
      = ({ requests := [], keysubs := [], prefixsubs := [] },
          [DeliveryEvent.toRequest 7 "respraw"], false) := by
  decide

/-- C6 (amended): a message whose response-envelope deserialization fails is fatal to
the dispatch loop (the loop exits at once, processing nothing further); a push message
whose envelope parses but whose push payload fails to deserialize is skipped, the loop
continuing with the remaining messages of the frame unchanged. -/
theorem parse_failure_behavior (st : ClientState) (m : RawMsg) (env : WireMsg)
    (rest : List RawMsg) :
    (m.envelope = none → processFrame st (m :: rest) = (st, [], true)) ∧
    (m.envelope = some env → env.requestId = "" → env.cmdType = "push" →
      m.pushPayload = none → processFrame st (m :: rest) = processFrame st rest) := by
  constructor
  · intro h
    simp [processFrame, processMsg, h]
  · intro he hr hc hp
    simp [processFrame, processMsg, he, hr, hc, hp]

/-- Witness for C6 (amended): a malformed-envelope message halts the loop on the spot;
the bad-payload push of the counterexample state is skipped. -/
theorem parse_failure_behavior_witness :
    processFrame pendingState [RawMsg.mk none none "garbage", respMsg]
      = (pendingState, [], true) ∧
    processFrame pendingState [badPushMsg, respMsg] = processFrame pendingState [respMsg] :=
  ⟨(parse_failure_behavior pendingState (RawMsg.mk none none "garbage") pushEnvelope
      [respMsg]).1 rfl,
    (parse_failure_behavior pendingState badPushMsg pushEnvelope [respMsg]).2 rfl rfl
      rfl rfl⟩

/-- C7: the current SetJSON issues a write-key command carrying the serialized value,
and — against a server that faithfully stores written strings — a JSON-set followed by
a JSON-get of the same key through an inverse codec returns the stored value. The
older variant of SetJSON (client.go:180-195) instead issues the read-key command, so
it writes nothing: the store is unchanged, which is the code bug the repository tests
(SetJSON then GetJSON of the same key) contradict. -/
theorem setJSON_writeKey_roundtrip {α : Type} (marshal : α → String)
    (unmarshal : String → Option α) (st : List (String × String)) (k : String) (v : α)
    (hru : unmarshal (marshal v) = some v) (hne : marshal v ≠ "") :
    (SetJSON marshal k v).cmdName = CmdWriteKey ∧
    GetJSON unmarshal (serverApply st (SetJSON marshal k v)).1 k = Except.ok v ∧
    (SetJSONOld marshal k v).cmdName = CmdReadKey ∧
    (serverApply st (SetJSONOld marshal k v)).1 = st := by
  refine ⟨rfl, ?_, rfl, ?_⟩
  · have hwrite : (serverApply st (SetJSON marshal k v)).1 = cmapSet st k (marshal v) := by
      simp [serverApply, SetJSON]
    rw [hwrite]
    unfold GetJSON
    have hread : (serverApply (cmapSet st k (marshal v))
        { cmdName := CmdReadKey, key := k, data := "" }).2 = marshal v := by
      simp [serverApply, CmdReadKey, CmdWriteKey, cmapGet_cmapSet_self]
    rw [hread]
    simp [hne, hru]
  · simp [serverApply, SetJSONOld, CmdReadKey, CmdWriteKey]

/-- Witness for C7, with the unary-string codec: setting key "test" to the value 3 and
reading it back yields 3, while the older variant leaves a store untouched. -/
theorem setJSON_writeKey_roundtrip_witness :
    GetJSON natUnmarshal (serverApply [] (SetJSON natMarshal "test" 3)).1 "test"
      = Except.ok 3 ∧
    (serverApply [("test", "test1234")] (SetJSONOld natMarshal "test" 3)).1
      = [("test", "test1234")] :=
  ⟨(setJSON_writeKey_roundtrip natMarshal natUnmarshal [] "test" 3 (by decide)
      (by decide)).2.1,
    (setJSON_writeKey_roundtrip natMarshal natUnmarshal [("test", "test1234")] "test" 3
      (by decide) (by decide)).2.2.2⟩

/-- C8 counterexample: when the first round trip succeeds but its Data object carries
no "challenge" field, Authenticate panics on the string type assertion instead of
returning an error (the outcome is neither ok nor err). -/
theorem authenticate_missing_challenge_panics :
    Authenticate (fun _ => some []) (fun _ _ _ => "h") (Except.ok (JValue.obj []))
      (fun _ => Except.ok ()) "pw" = GoResult.panicked := by
  rfl

/-- C8 (amended): Authenticate returns an error whenever either request round trip
fails, and whenever the challenge or salt field is a string that fails base64
decoding; but when the challenge (or salt) field is missing or not a string, the Go
type assertion panics instead of returning an error. -/
theorem authenticate_error_paths (b64 : String → Option (List Nat))
    (hm : String → List Nat → List Nat → String) (round2 : String → Except String Unit)
    (pw e ch salt : String) :
    (Authenticate b64 hm (Except.error e) round2 pw = GoResult.err e) ∧
    (b64 ch = none →
      Authenticate b64 hm
        (Except.ok (JValue.obj [("challenge", JValue.str ch), ("salt", JValue.str salt)]))
        round2 pw = GoResult.err "failed to decode challenge") ∧
    (∀ cb, b64 ch = some cb → b64 salt = none →
      Authenticate b64 hm
        (Except.ok (JValue.obj [("challenge", JValue.str ch), ("salt", JValue.str salt)]))
        round2 pw = GoResult.err "failed to decode salt") ∧
    (∀ cb sb e2, b64 ch = some cb → b64 salt = some sb →
      round2 (hm pw sb cb) = Except.error e2 →
      Authenticate b64 hm
        (Except.ok (JValue.obj [("challenge", JValue.str ch), ("salt", JValue.str salt)]))
        round2 pw = GoResult.err e2) ∧
    (∀ resData, typeAssertObj resData = GoResult.panicked →
      Authenticate b64 hm (Except.ok resData) round2 pw = GoResult.panicked) := by
  refine ⟨rfl, ?_, ?_, ?_, ?_⟩
  · intro h
    simp [Authenticate, typeAssertObj, mapIndex, cmapGet, typeAssertString, h]
  · intro cb hch hsalt
    simp [Authenticate, typeAssertObj, mapIndex, cmapGet, typeAssertString, hch, hsalt]
  · intro cb sb e2 hch hsalt h2
    simp [Authenticate, typeAssertObj, mapIndex, cmapGet, typeAssertString, hch, hsalt,
      h2]
  · intro resData h
    simp [Authenticate, h]

/-- Witness for C8 (amended), with a decoder accepting only the string "good": a
failed first round trip errors; a challenge that is not valid base64 errors; a salt
that is not valid base64 errors; a failed second round trip errors; a non-object Data
panics. -/
theorem authenticate_error_paths_witness :
    Authenticate (fun s => if s = "good" then some [1] else none) (fun _ _ _ => "h")
      (Except.error "dial") (fun _ => Except.ok ()) "pw" = GoResult.err "dial" ∧
    Authenticate (fun s => if s = "good" then some [1] else none) (fun _ _ _ => "h")
      (Except.ok (JValue.obj [("challenge", JValue.str "bad"),
        ("salt", JValue.str "good")]))
      (fun _ => Except.ok ()) "pw" = GoResult.err "failed to decode challenge" ∧
    Authenticate (fun s => if s = "good" then some [1] else none) (fun _ _ _ => "h")
      (Except.ok (JValue.obj [("challenge", JValue.str "good"),
        ("salt", JValue.str "bad")]))
      (fun _ => Except.ok ()) "pw" = GoResult.err "failed to decode salt" ∧
    Authenticate (fun s => if s = "good" then some [1] else none) (fun _ _ _ => "h")
      (Except.ok (JValue.obj [("challenge", JValue.str "good"),
        ("salt", JValue.str "good")]))
      (fun _ => Except.error "denied") "pw" = GoResult.err "denied" ∧
    Authenticate (fun s => if s = "good" then some [1] else none) (fun _ _ _ => "h")
      (Except.ok (JValue.str "notanobject")) (fun _ => Except.ok ()) "pw"
      = GoResult.panicked := by
  refine ⟨?_, ?_, ?_, ?_, ?_⟩
  · exact (authenticate_error_paths (fun s => if s = "good" then some [1] else none)
      (fun _ _ _ => "h") (fun _ => Except.ok ()) "pw" "dial" "bad" "good").1
  · exact (authenticate_error_paths (fun s => if s = "good" then some [1] else none)
      (fun _ _ _ => "h") (fun _ => Except.ok ()) "pw" "dial" "bad" "good").2.1 (by simp)
  · exact (authenticate_error_paths (fun s => if s = "good" then some [1] else none)
      (fun _ _ _ => "h") (fun _ => Except.ok ()) "pw" "dial" "good" "bad").2.2.1 [1]
      (by simp) (by simp)
  · exact (authenticate_error_paths (fun s => if s = "good" then some [1] else none)
      (fun _ _ _ => "h") (fun _ => Except.error "denied") "pw" "dial" "good"
      "good").2.2.2.1 [1] [1] "denied" (by simp) (by simp) rfl
  · exact (authenticate_error_paths (fun s => if s = "good" then some [1] else none)
      (fun _ _ _ => "h") (fun _ => Except.ok ()) "pw" "dial" "bad"
      "good").2.2.2.2 (JValue.str "notanobject") rfl

/-- C9 counterexample: the response slot of a pending request is allocated unbuffered
(`make(chan string)`), so delivering the correlated response to it when the calling
path is not already blocked at the receive does block the dispatch loop — the slot is
not sized so that the delivery cannot block. -/
theorem response_slot_delivery_blocks :
    responseChannelCapacity = 0 ∧
    sendWouldBlock (BufChan.mk responseChannelCapacity 0 false) = true := by
  decide

/-- C9 (amended): the pending-request response slot is unbuffered, so delivering the
correlated response blocks the dispatch loop unless the calling request path is
already waiting at its receive (which is the normal case, the caller blocking on the
slot right after sending); listener slots are buffered with capacity 10, so a push
delivery does not block until ten undelivered pushes have accumulated, after which it
does block the dispatch loop. -/
theorem channel_capacity_blocking :
    (sendWouldBlock (BufChan.mk responseChannelCapacity 0 true) = false) ∧
    (sendWouldBlock (BufChan.mk responseChannelCapacity 0 false) = true) ∧
    (∀ q, q < listenerChannelCapacity →
      sendWouldBlock (BufChan.mk listenerChannelCapacity q false) = false) ∧
    (∀ q, listenerChannelCapacity ≤ q →
      sendWouldBlock (BufChan.mk listenerChannelCapacity q false) = true) := by
  refine ⟨by decide, by decide, ?_, ?_⟩
  · intro q hq
    simp [sendWouldBlock, hq]
  · intro q hq
    simp [sendWouldBlock]
    omega

/-- Witness for C9 (amended) at queue depths 3 and 10. -/
theorem channel_capacity_blocking_witness :
    sendWouldBlock (BufChan.mk listenerChannelCapacity 3 false) = false ∧
    sendWouldBlock (BufChan.mk listenerChannelCapacity 10 false) = true :=
  ⟨channel_capacity_blocking.2.2.1 3 (by decide),
    channel_capacity_blocking.2.2.2 10 (by decide)⟩

end Kvclient
